import Mathlib

/-!
Verification of the `OpenE2EE` envelope-encryption manager
(`src/lib/open-e2ee.ts`).

The manager orchestrates three collaborators that the repository imports
from `./encryption`, `./pgp` and `./encoding.utils`; those files are not
part of the staged sources, so this development models them from the
spec's interface contracts (spec §6) as a symbolic message algebra: every
JavaScript string handled by the manager is a term of `MText`, and the
engines are executable functions on such terms.  The manager itself
(`OpenE2EE`) is translated line by line from `src/lib/open-e2ee.ts`.

JavaScript semantics captured by the embedding:
- optional fields (`privateKey?`, …) are `Option`s; the source's
  `this.privateKey as PGPPrivateKey` casts forward the possibly-`undefined`
  value to the engine unchecked, so engine functions take `Option`s and
  fail on `none` (an engine-level error on absent key material);
- a method call returns its result (or the thrown error, as `Except.error`)
  together with the state of the object after the call; field assignments
  in the source all happen after every `await` has succeeded, so a failing
  call leaves the old state;
- `Promise.all [a, b]` requires both to succeed and propagates a failure.
-/

/-- Equality of `Except` results is decidable when it is on both sides;
used to evaluate the embedded operations at concrete inputs. -/
instance instDecidableEqExcept {ε α : Type} [DecidableEq ε] [DecidableEq α] :
    DecidableEq (Except ε α) := fun x y =>
  match x, y with
  | .ok a, .ok b =>
      if h : a = b then .isTrue (by rw [h]) else .isFalse (by simp [h])
  | .error e, .error f =>
      if h : e = f then .isTrue (by rw [h]) else .isFalse (by simp [h])
  | .ok _, .error _ => .isFalse (by simp)
  | .error _, .ok _ => .isFalse (by simp)

/-- Byte sequences (`Uint8Array` in the source). -/
abbrev Bytes := List Nat

/-- Modelled from the spec: the Symmetric Engine's opaque usable key handle
(`CryptoKey`).  A handle is identified by the raw bytes it was imported
from. -/
abbrev CryptoKey := Bytes

/-- Modelled from the spec: a PGP private-key handle, identified by the id
of the key pair it belongs to. -/
abbrev PGPPrivateKey := Nat

/-- Modelled from the spec: a PGP public-key handle, identified by the id
of the key pair it belongs to. -/
abbrev PGPPublicKey := Nat

/-- Modelled from the spec: the strings the manager moves between the
engines, as a symbolic message algebra.  `str` is ordinary text, `hexOf bs`
the hex encoding of the bytes `bs`, `privSer pid pass` the serialized
private key of pair `pid` protected under passphrase `pass`, `pubSer pid`
the serialized public key of pair `pid`, `asym sk pk t` the asymmetric
(wrap) ciphertext of `t` produced under the handle pair `(sk, pk)`, and
`sym k d` the authenticated symmetric ciphertext of payload `d` under the
key text `k`. -/
inductive MText where
  | str : String → MText
  | hexOf : Bytes → MText
  | privSer : Nat → String → MText
  | pubSer : Nat → MText
  | asym : Nat → Nat → MText → MText
  | sym : MText → String → MText
deriving DecidableEq, Repr

/-- The spec's error kinds (spec §7), plus the engine-level error raised
when an engine receives absent (`undefined`) key material. -/
inductive Err where
  | notInitialized
  | keyGenerationFailure
  | passphraseMismatch
  | invalidSerializedKey
  | wrapFailure
  | unwrapFailure
  | payloadDecryptionFailure
  | absentKeyMaterial
deriving DecidableEq, Repr

/-- Modelled from the spec: `arrayToHexString` of `encoding.utils` —
`bytesToHex(bytes) -> text`, total, inverse of `hexStringToArray` on valid
hex. -/
def arrayToHexString (bytes : Bytes) : MText := .hexOf bytes

/-- Modelled from the spec: `hexStringToArray` of `encoding.utils` —
`hexToBytes(text) -> bytes`, total; on text that is not a hex encoding it
yields junk bytes rather than failing (the adapter is total). -/
def hexStringToArray (text : MText) : Bytes :=
  match text with
  | .hexOf bytes => bytes
  | _ => []

/-- Which message terms denote the empty JavaScript string `""` (the only
falsy string).  Serialized keys and ciphertexts are armored, nonempty
text. -/
def MText.isEmptyStr : MText → Bool
  | .str "" => true
  | .hexOf [] => true
  | _ => false

/-- The source's `x || ""`: `undefined` and the empty string collapse to
`""`, any other string passes through. -/
def orEmptyString (x : Option MText) : MText :=
  match x with
  | none => .str ""
  | some t => if t.isEmptyStr then .str "" else t

namespace EncryptionService

/-- Modelled from the spec: `createEncryptionKey() -> {key: bytes, keyObj:
handle}` of the Symmetric Engine.  Its randomness is an explicit input:
the fresh raw key bytes the engine draws. -/
def createEncryptionKey (fresh : Bytes) : Bytes × CryptoKey := (fresh, fresh)

/-- Modelled from the spec: `importSymmetricKey(bytes) -> handle` of the
Symmetric Engine. -/
def importSymmetricKey (raw : Bytes) : CryptoKey := raw

end EncryptionService

namespace PGPService

/-- Modelled from the spec: `generateKeyPair(passphrase, identity)` of the
Asymmetric Engine.  Its randomness is an explicit input: `some pid` is the
freshly drawn pair id, `none` a failure of the generator
(`KeyGenerationFailure`, spec §7). -/
def generateKeyPair (passphrase : String) (_userId : String)
    (entropy : Option Nat) : Except Err (MText × MText) :=
  match entropy with
  | some pid => .ok (.privSer pid passphrase, .pubSer pid)
  | none => .error .keyGenerationFailure

/-- Modelled from the spec: `decryptPrivateKey(encryptedSerialization,
passphrase) -> privateKeyHandle`; fails with an authentication error on a
wrong passphrase and a format error on input that is not a serialized
private key. -/
def decryptPrivateKey (encryptedKey : MText) (passphrase : String) :
    Except Err PGPPrivateKey :=
  match encryptedKey with
  | .privSer pid p =>
      if p = passphrase then .ok pid else .error .passphraseMismatch
  | _ => .error .invalidSerializedKey

/-- Modelled from the spec: `readPublicKey(serialization) ->
publicKeyHandle`; fails on input that is not a serialized public key. -/
def readPublicKey (publicKey : MText) : Except Err PGPPublicKey :=
  match publicKey with
  | .pubSer pid => .ok pid
  | _ => .error .invalidSerializedKey

/-- Modelled from the spec: `encryptAsymmetric(privateKeyHandle,
publicKeyHandle, text) -> ciphertextText`.  The handles arrive as the
source's unchecked casts of optional fields, so absent key material is an
engine error. -/
def encryptAsymmetric (privateKey : Option PGPPrivateKey)
    (publicKey : Option PGPPublicKey) (data : MText) : Except Err MText :=
  match privateKey, publicKey with
  | some sk, some pk => .ok (.asym sk pk data)
  | _, _ => .error .absentKeyMaterial

/-- Modelled from the spec: `decryptAsymmetric(privateKeyHandle,
publicKeyHandle, ciphertextText) -> plaintextText`; authenticated, so it
"fails if the wrapped text was not produced under the same key pair, or is
structurally invalid" (spec §4.2). -/
def decryptAsymmetric (privateKey : Option PGPPrivateKey)
    (publicKey : Option PGPPublicKey) (data : MText) : Except Err MText :=
  match privateKey, publicKey with
  | some sk, some pk =>
      match data with
      | .asym sk' pk' t =>
          if sk' = sk ∧ pk' = pk then .ok t else .error .unwrapFailure
      | _ => .error .unwrapFailure
  | _, _ => .error .absentKeyMaterial

/-- Modelled from the spec: the payload path `encrypt(hexKeyText,
plaintext) -> ciphertext` of the engine. -/
def encrypt (key : MText) (data : String) : MText := .sym key data

/-- Modelled from the spec: the payload path `decrypt(hexKeyText,
ciphertext) -> plaintext`; authenticated, rejecting tampered or mis-keyed
ciphertext (`PayloadDecryptionFailure`, spec §7). -/
def decrypt (key : MText) (data : MText) : Except Err String :=
  match data with
  | .sym k d => if k = key then .ok d else .error .payloadDecryptionFailure
  | _ => .error .payloadDecryptionFailure

end PGPService

/-- `E2EEItemEncrypted` of `src/lib/open-e2ee.ts`. -/
structure E2EEItemEncrypted where
  encryptedKey : MText
  encryptedValue : MText
  keyObj : CryptoKey
deriving DecidableEq, Repr

/-- `E2EEItem` of `src/lib/open-e2ee.ts`. -/
structure E2EEItem where
  keyObj : CryptoKey
  key : MText
  value : String
deriving DecidableEq, Repr

/-- The record `exportMasterKeys` returns. -/
structure ExportedMasterKeys where
  privateKey : MText
  publicKey : MText
deriving DecidableEq, Repr

/-- The instance fields of class `OpenE2EE` (the engine objects
`cryptoSvc`/`pgpService` are stateless and live at the top level here). -/
structure OpenE2EE where
  passphrase : String
  privateKey : Option PGPPrivateKey
  privateKeyEncryptedText : Option MText
  publicKeyText : Option MText
  publicKey : Option PGPPublicKey
  userId : String
deriving DecidableEq, Repr

namespace OpenE2EE

/-- The constructor `new OpenE2EE(userId, passphrase)`: key fields start
unset. -/
def new (userId passphrase : String) : OpenE2EE :=
  { passphrase := passphrase
    privateKey := none
    privateKeyEncryptedText := none
    publicKeyText := none
    publicKey := none
    userId := userId }

/-- `encryptKey` (private method): hex-encode the raw key and wrap it
asymmetrically under the manager's own pair; the source's `as` casts
forward the optional fields unchecked. -/
def encryptKey (st : OpenE2EE) (key : Bytes) : Except Err MText :=
  PGPService.encryptAsymmetric st.privateKey st.publicKey
    (arrayToHexString key)

/-- The record `decryptKey` resolves to. -/
structure DecryptedKey where
  key : MText
  keyObj : CryptoKey
deriving DecidableEq, Repr

/-- `decryptKey` (private method): unwrap the key text asymmetrically,
then import its bytes as a symmetric-key handle. -/
def decryptKey (st : OpenE2EE) (encryptedKey : MText) :
    Except Err DecryptedKey := do
  let key ← PGPService.decryptAsymmetric st.privateKey st.publicKey
    encryptedKey
  pure { key := key
         keyObj := EncryptionService.importSymmetricKey
           (hexStringToArray key) }

/-- `build`: generate a pair, decrypt the fresh private key under the
passphrase and import the public key (`Promise.all`: both must succeed),
then store the four key fields.  The generator's randomness is the
explicit `entropy` input.  Returns (result, object state after the
call). -/
def build (st : OpenE2EE) (entropy : Option Nat) :
    Except Err OpenE2EE × OpenE2EE :=
  match PGPService.generateKeyPair st.passphrase st.userId entropy with
  | .error e => (.error e, st)
  | .ok (privateKey, publicKey) =>
      match PGPService.decryptPrivateKey privateKey st.passphrase,
            PGPService.readPublicKey publicKey with
      | .ok sk, .ok pk =>
          let st' := { st with
            privateKey := some sk
            publicKey := some pk
            privateKeyEncryptedText := some privateKey
            publicKeyText := some publicKey }
          (.ok st', st')
      | .error e, _ => (.error e, st)
      | _, .error e => (.error e, st)

/-- `load`: decrypt the given private key under the configured passphrase
and import the given public key (`Promise.all`: both must succeed), then
store the handles and the original serialized texts.  Returns (result,
object state after the call). -/
def load (st : OpenE2EE) (encryptedPrivateKey publicKey : MText) :
    Except Err OpenE2EE × OpenE2EE :=
  match PGPService.decryptPrivateKey encryptedPrivateKey st.passphrase,
        PGPService.readPublicKey publicKey with
  | .ok privateKeyObj, .ok publicKeyObj =>
      let st' := { st with
        privateKey := some privateKeyObj
        publicKey := some publicKeyObj
        privateKeyEncryptedText := some encryptedPrivateKey
        publicKeyText := some publicKey }
      (.ok st', st')
  | .error e, _ => (.error e, st)
  | _, .error e => (.error e, st)

/-- `exportMasterKeys`: return the stored serialized texts, `""` when
unset (the source's `|| ""`).  Returns (result, object state after the
call). -/
def exportMasterKeys (st : OpenE2EE) : ExportedMasterKeys × OpenE2EE :=
  ({ privateKey := orEmptyString st.privateKeyEncryptedText
     publicKey := orEmptyString st.publicKeyText }, st)

/-- `encrypt`: draw a fresh symmetric key (randomness is the explicit
`freshKey` input), wrap it and symmetrically encrypt the payload under its
hex text (`Promise.all`: both must succeed).  Returns (result, object
state after the call). -/
def encrypt (st : OpenE2EE) (freshKey : Bytes) (data : String) :
    Except Err E2EEItemEncrypted × OpenE2EE :=
  let g := EncryptionService.createEncryptionKey freshKey
  match st.encryptKey g.1 with
  | .ok encryptedKey =>
      (.ok { encryptedKey := encryptedKey
             encryptedValue := PGPService.encrypt (arrayToHexString g.1) data
             keyObj := g.2 }, st)
  | .error e => (.error e, st)

/-- `decrypt`: unwrap the key via `decryptKey`, then decrypt the payload
under the recovered key text.  Returns (result, object state after the
call). -/
def decrypt (st : OpenE2EE) (encryptedKey encryptedData : MText) :
    Except Err E2EEItem × OpenE2EE :=
  match st.decryptKey encryptedKey with
  | .error e => (.error e, st)
  | .ok dk =>
      match PGPService.decrypt dk.key encryptedData with
      | .error e => (.error e, st)
      | .ok value => (.ok { keyObj := dk.keyObj, key := dk.key, value := value }, st)

end OpenE2EE

/-! ## Claims -/

/-- C1: for every Ready manager, `encrypt P` followed by `decrypt` of the
returned pair recovers `value = P`, and the key text `decrypt` returns is
the hex encoding of the symmetric key generated inside that `encrypt`
call. -/
theorem C1_round_trip (st : OpenE2EE) (sk pk : Nat) (k : Bytes) (P : String)
    (hsk : st.privateKey = some sk) (hpk : st.publicKey = some pk) :
    ∃ item : E2EEItemEncrypted,
      (st.encrypt k P).1 = .ok item ∧
      (st.decrypt item.encryptedKey item.encryptedValue).1 =
        .ok { keyObj := EncryptionService.importSymmetricKey k
              key := arrayToHexString k
              value := P } := by
  refine ⟨{ encryptedKey := .asym sk pk (arrayToHexString k)
            encryptedValue := .sym (arrayToHexString k) P
            keyObj := k }, ?_, ?_⟩ <;>
    simp [OpenE2EE.encrypt, OpenE2EE.decrypt, OpenE2EE.encryptKey,
      OpenE2EE.decryptKey, PGPService.encryptAsymmetric,
      PGPService.decryptAsymmetric, PGPService.encrypt, PGPService.decrypt,
      EncryptionService.createEncryptionKey,
      EncryptionService.importSymmetricKey, arrayToHexString,
      hexStringToArray, hsk, hpk]

/-- C1 witness: the spec §8 scenario on a freshly built manager. -/
theorem C1_round_trip_witness :
    ∃ item : E2EEItemEncrypted,
      ((((OpenE2EE.new "user-1" "correct-horse").build (some 0)).2).encrypt
          [1, 2] "hello world").1 = .ok item ∧
      ((((OpenE2EE.new "user-1" "correct-horse").build (some 0)).2).decrypt
          item.encryptedKey item.encryptedValue).1 =
        .ok { keyObj := EncryptionService.importSymmetricKey [1, 2]
              key := arrayToHexString [1, 2]
              value := "hello world" } :=
  C1_round_trip _ 0 0 [1, 2] "hello world" (by decide) (by decide)

/-- C2 counterexample: on a freshly constructed (Uninitialized) manager,
`encrypt` and `decrypt` do fail, but with the engine's error on the absent
(`undefined`) key material forwarded by the source's `as` casts — not with
a `NotInitialized` (not-ready) error; the source performs no readiness
check. -/
theorem C2_counterexample :
    ((OpenE2EE.new "user-1" "correct-horse").encrypt [1, 2] "hello").1 ≠
        .error Err.notInitialized ∧
    ((OpenE2EE.new "user-1" "correct-horse").decrypt (.str "k") (.str "v")).1 ≠
        .error Err.notInitialized ∧
    ((OpenE2EE.new "user-1" "correct-horse").encrypt [1, 2] "hello").1 =
        .error Err.absentKeyMaterial ∧
    ((OpenE2EE.new "user-1" "correct-horse").decrypt (.str "k") (.str "v")).1 =
        .error Err.absentKeyMaterial := by
  refine ⟨by decide, by decide, by decide, by decide⟩

/-- C2 (amended): on a manager whose private-key field is still unset,
`encrypt` and `decrypt` fail — but with the engine-level error on absent
key material (the unchecked casts forward `undefined` to the engine), not
with a dedicated `NotInitialized` readiness error. -/
theorem C2_uninitialized_fails (st : OpenE2EE) (k : Bytes) (d : String)
    (ek ev : MText) (hsk : st.privateKey = none) :
    (st.encrypt k d).1 = .error Err.absentKeyMaterial ∧
    (st.decrypt ek ev).1 = .error Err.absentKeyMaterial := by
  cases hpk : st.publicKey <;>
    constructor <;>
      simp [OpenE2EE.encrypt, OpenE2EE.decrypt, OpenE2EE.encryptKey,
        OpenE2EE.decryptKey, PGPService.encryptAsymmetric,
        PGPService.decryptAsymmetric, EncryptionService.createEncryptionKey,
        hsk, hpk]

/-- C2 witness: the amended statement at a concrete uninitialized
manager. -/
theorem C2_uninitialized_fails_witness :
    ((OpenE2EE.new "u" "p").encrypt [1] "x").1 = .error Err.absentKeyMaterial ∧
    ((OpenE2EE.new "u" "p").decrypt (.str "a") (.str "b")).1 =
      .error Err.absentKeyMaterial :=
  C2_uninitialized_fails (OpenE2EE.new "u" "p") [1] "x" (.str "a") (.str "b")
    rfl

/-- C3: `exportMasterKeys` mutates nothing, is stable under repetition,
depends only on the two stored serialized texts (in particular never on
the usable private key), and before any `build`/`load` returns the empty
string for both fields. -/
theorem C3_exportMasterKeys_accessor (st st' : OpenE2EE) :
    st.exportMasterKeys.2 = st ∧
    (st.exportMasterKeys.2).exportMasterKeys.1 = st.exportMasterKeys.1 ∧
    (st.privateKeyEncryptedText = st'.privateKeyEncryptedText →
      st.publicKeyText = st'.publicKeyText →
      st.exportMasterKeys.1 = st'.exportMasterKeys.1) ∧
    (st.privateKeyEncryptedText = none → st.publicKeyText = none →
      st.exportMasterKeys.1 =
        { privateKey := .str "", publicKey := .str "" }) := by
  refine ⟨rfl, rfl, ?_, ?_⟩ <;>
    · intro h1 h2
      simp [OpenE2EE.exportMasterKeys, orEmptyString, h1, h2]

/-- C3 witness: a freshly constructed manager exports two empty strings
and is left unchanged. -/
theorem C3_exportMasterKeys_witness :
    (OpenE2EE.new "u" "p").exportMasterKeys.1 =
      { privateKey := MText.str "", publicKey := MText.str "" } ∧
    (OpenE2EE.new "u" "p").exportMasterKeys.2 = OpenE2EE.new "u" "p" :=
  ⟨(C3_exportMasterKeys_accessor (OpenE2EE.new "u" "p")
      (OpenE2EE.new "u" "p")).2.2.2 rfl rfl,
   (C3_exportMasterKeys_accessor (OpenE2EE.new "u" "p")
      (OpenE2EE.new "u" "p")).1⟩

/-- C4: after a successful `load(encryptedPrivateKey, publicKey)`,
`exportMasterKeys` returns exactly the two argument strings verbatim. -/
theorem C4_export_after_load (st st' : OpenE2EE) (a b : MText)
    (h : (st.load a b).1 = .ok st') :
    st'.exportMasterKeys.1 = { privateKey := a, publicKey := b } := by
  unfold OpenE2EE.load at h
  cases ha : PGPService.decryptPrivateKey a st.passphrase with
  | error e =>
      rw [ha] at h
      cases hb : PGPService.readPublicKey b <;> rw [hb] at h <;> simp at h
  | ok sk =>
      rw [ha] at h
      cases hb : PGPService.readPublicKey b with
      | error e => rw [hb] at h; simp at h
      | ok pk =>
          rw [hb] at h
          simp only [Except.ok.injEq] at h
          subst h
          have haShape : ∃ pid p, a = .privSer pid p := by
            cases a <;> simp [PGPService.decryptPrivateKey] at ha
            exact ⟨_, _, rfl⟩
          have hbShape : ∃ pid, b = .pubSer pid := by
            cases b <;> simp [PGPService.readPublicKey] at hb
            exact ⟨_, rfl⟩
          obtain ⟨pid, p, rfl⟩ := haShape
          obtain ⟨pid', rfl⟩ := hbShape
          simp [OpenE2EE.exportMasterKeys, orEmptyString, MText.isEmptyStr]

/-- C4 witness: a concrete successful load exports its two arguments. -/
theorem C4_export_after_load_witness :
    (((OpenE2EE.new "u" "p").load (.privSer 0 "p") (.pubSer 0)).2).exportMasterKeys.1 =
      { privateKey := MText.privSer 0 "p", publicKey := MText.pubSer 0 } :=
  C4_export_after_load (OpenE2EE.new "u" "p") _ (.privSer 0 "p") (.pubSer 0)
    rfl

/-- C5: a manager configured with a passphrase different from the one the
encrypted private key was protected under fails `load` with the
passphrase-mismatch error propagated from the engine, leaves the state
unchanged, and in general `load` succeeds only if both the private-key
decryption and the public-key import succeed. -/
theorem C5_wrong_passphrase_load_fails (st : OpenE2EE) (pid : Nat)
    (p : String) (b : MText) (hp : p ≠ st.passphrase) :
    ((st.load (.privSer pid p) b).1 = .error Err.passphraseMismatch ∧
     (st.load (.privSer pid p) b).2 = st) ∧
    (∀ a b' : MText, (st.load a b').1.isOk = true →
      (PGPService.decryptPrivateKey a st.passphrase).isOk = true ∧
      (PGPService.readPublicKey b').isOk = true) := by
  constructor
  · have ha : PGPService.decryptPrivateKey (.privSer pid p) st.passphrase =
        .error Err.passphraseMismatch := by
      simp [PGPService.decryptPrivateKey, hp]
    cases hb : PGPService.readPublicKey b <;>
      constructor <;> simp [OpenE2EE.load, ha, hb]
  · intro a b' h
    cases ha : PGPService.decryptPrivateKey a st.passphrase <;>
      cases hb : PGPService.readPublicKey b' <;>
        simp [OpenE2EE.load, ha, hb, Except.isOk, Except.toBool] at h ⊢

/-- C5 witness: loading under the wrong passphrase fails with
`PassphraseMismatch` at a concrete input. -/
theorem C5_wrong_passphrase_witness :
    ((OpenE2EE.new "u" "p").load (.privSer 0 "wrong") (.pubSer 0)).1 =
      .error Err.passphraseMismatch :=
  (C5_wrong_passphrase_load_fails (OpenE2EE.new "u" "p") 0 "wrong"
    (.pubSer 0) (by decide)).1.1

/-- C6: when `build` or `load` fails, the operation aborts with the
object's fields exactly as they were before the call: no partial key
state is ever left behind. -/
theorem C6_failure_leaves_state (st : OpenE2EE) (a b : MText)
    (entropy : Option Nat) :
    ((st.load a b).1.isOk = false → (st.load a b).2 = st) ∧
    ((st.build entropy).1.isOk = false → (st.build entropy).2 = st) := by
  constructor
  · intro h
    cases ha : PGPService.decryptPrivateKey a st.passphrase <;>
      cases hb : PGPService.readPublicKey b <;>
        simp [OpenE2EE.load, ha, hb, Except.isOk, Except.toBool] at h ⊢
  · intro h
    cases he : PGPService.generateKeyPair st.passphrase st.userId entropy with
    | error e => simp [OpenE2EE.build, he]
    | ok pair =>
        obtain ⟨privateKey, publicKey⟩ := pair
        cases ha : PGPService.decryptPrivateKey privateKey st.passphrase <;>
          cases hb : PGPService.readPublicKey publicKey <;>
            simp [OpenE2EE.build, he, ha, hb, Except.isOk, Except.toBool]
              at h ⊢

/-- C6 witness: a failing load (malformed inputs) and a failing build
(generator failure) both leave a fresh manager unchanged. -/
theorem C6_failure_leaves_state_witness :
    ((OpenE2EE.new "u" "p").load (.str "junk") (.str "junk")).2 =
      OpenE2EE.new "u" "p" ∧
    ((OpenE2EE.new "u" "p").build none).2 = OpenE2EE.new "u" "p" :=
  ⟨(C6_failure_leaves_state (OpenE2EE.new "u" "p") (.str "junk")
      (.str "junk") none).1 (by decide),
   (C6_failure_leaves_state (OpenE2EE.new "u" "p") (.str "junk")
      (.str "junk") none).2 (by decide)⟩

/-- C7: `decrypt` propagates a key-unwrap failure unchanged, fails
whenever payload decryption under the recovered key fails, and returns an
`E2EEItem` only when both steps fully succeeded — never a partial or
garbled result. -/
theorem C7_decrypt_failure_propagation (st : OpenE2EE) (ek ev : MText) :
    (∀ e : Err, st.decryptKey ek = .error e → (st.decrypt ek ev).1 = .error e) ∧
    (∀ dk : OpenE2EE.DecryptedKey, st.decryptKey ek = .ok dk →
      ∀ e : Err, PGPService.decrypt dk.key ev = .error e →
        (st.decrypt ek ev).1 = .error e) ∧
    (∀ item : E2EEItem, (st.decrypt ek ev).1 = .ok item →
      ∃ dk : OpenE2EE.DecryptedKey, st.decryptKey ek = .ok dk ∧
        PGPService.decrypt dk.key ev = .ok item.value) := by
  refine ⟨?_, ?_, ?_⟩
  · intro e h
    simp [OpenE2EE.decrypt, h]
  · intro dk hdk e h
    simp [OpenE2EE.decrypt, hdk, h]
  · intro item h
    cases hdk : st.decryptKey ek with
    | error e => simp [OpenE2EE.decrypt, hdk] at h
    | ok dk =>
        cases hv : PGPService.decrypt dk.key ev with
        | error e => simp [OpenE2EE.decrypt, hdk, hv] at h
        | ok value =>
            simp [OpenE2EE.decrypt, hdk, hv] at h
            exact ⟨dk, rfl, by subst h; simp [hv]⟩

/-- C7 witness: a failing unwrap (tampered wrapped key on a built
manager) propagates its error through `decrypt`. -/
theorem C7_decrypt_failure_witness :
    ((((OpenE2EE.new "u" "p").build (some 0)).2).decrypt (.str "tampered")
        (.str "v")).1 = .error Err.unwrapFailure :=
  (C7_decrypt_failure_propagation (((OpenE2EE.new "u" "p").build (some 0)).2)
    (.str "tampered") (.str "v")).1 Err.unwrapFailure (by decide)

/-- C8: on a Ready manager, two `encrypt` runs of the same plaintext that
draw distinct fresh symmetric keys return different `encryptedKey` and
different `encryptedValue`. -/
theorem C8_key_uniqueness (st : OpenE2EE) (sk pk : Nat) (k1 k2 : Bytes)
    (P : String) (hsk : st.privateKey = some sk)
    (hpk : st.publicKey = some pk) (hk : k1 ≠ k2) :
    ∃ i1 i2 : E2EEItemEncrypted,
      (st.encrypt k1 P).1 = .ok i1 ∧ (st.encrypt k2 P).1 = .ok i2 ∧
      i1.encryptedKey ≠ i2.encryptedKey ∧
      i1.encryptedValue ≠ i2.encryptedValue := by
  refine ⟨{ encryptedKey := .asym sk pk (arrayToHexString k1)
            encryptedValue := .sym (arrayToHexString k1) P
            keyObj := k1 },
          { encryptedKey := .asym sk pk (arrayToHexString k2)
            encryptedValue := .sym (arrayToHexString k2) P
            keyObj := k2 }, ?_, ?_, ?_, ?_⟩ <;>
    simp [OpenE2EE.encrypt, OpenE2EE.encryptKey, PGPService.encryptAsymmetric,
      PGPService.encrypt, EncryptionService.createEncryptionKey,
      arrayToHexString, hsk, hpk, hk]

/-- C8 witness: two concrete runs with distinct fresh keys. -/
theorem C8_key_uniqueness_witness :
    ∃ i1 i2 : E2EEItemEncrypted,
      ((((OpenE2EE.new "u" "p").build (some 0)).2).encrypt [1] "hi").1 =
        .ok i1 ∧
      ((((OpenE2EE.new "u" "p").build (some 0)).2).encrypt [2] "hi").1 =
        .ok i2 ∧
      i1.encryptedKey ≠ i2.encryptedKey ∧
      i1.encryptedValue ≠ i2.encryptedValue :=
  C8_key_uniqueness _ 0 0 [1] [2] "hi" (by decide) (by decide) (by decide)

/-- C9: `encrypt`, `decrypt` and `exportMasterKeys` write no instance
field: the object state after each call equals the state before it (the
key fields are written only by `build` and `load`). -/
theorem C9_read_only_operations (st : OpenE2EE) (k : Bytes) (d : String)
    (ek ev : MText) :
    (st.encrypt k d).2 = st ∧ (st.decrypt ek ev).2 = st ∧
    st.exportMasterKeys.2 = st := by
  refine ⟨?_, ?_, rfl⟩
  · cases h : st.encryptKey k <;>
      simp [OpenE2EE.encrypt, EncryptionService.createEncryptionKey, h]
  · cases hdk : st.decryptKey ek with
    | error e => simp [OpenE2EE.decrypt, hdk]
    | ok dk =>
        cases hv : PGPService.decrypt dk.key ev <;>
          simp [OpenE2EE.decrypt, hdk, hv]

/-- C10: `load` checks no consistency between its two arguments: it
succeeds — storing the two handles — for every pair id combination in
which the private key decrypts under the configured passphrase and the
public key parses, even when the two belong to different key pairs; and
whenever both per-key operations succeed, `load` succeeds. -/
theorem C10_load_no_consistency_check (st : OpenE2EE) :
    (∀ a b : MText,
      (PGPService.decryptPrivateKey a st.passphrase).isOk = true →
      (PGPService.readPublicKey b).isOk = true →
      (st.load a b).1.isOk = true) ∧
    (∀ pid1 pid2 : Nat,
      (st.load (.privSer pid1 st.passphrase) (.pubSer pid2)).1 =
        .ok { st with
          privateKey := some pid1
          publicKey := some pid2
          privateKeyEncryptedText := some (.privSer pid1 st.passphrase)
          publicKeyText := some (.pubSer pid2) }) := by
  constructor
  · intro a b ha hb
    cases ha' : PGPService.decryptPrivateKey a st.passphrase <;>
      cases hb' : PGPService.readPublicKey b <;>
        simp [OpenE2EE.load, ha', hb', Except.isOk, Except.toBool] at ha hb ⊢
  · intro pid1 pid2
    simp [OpenE2EE.load, PGPService.decryptPrivateKey,
      PGPService.readPublicKey]

/-- C10 witness: a mismatched pair (private key of pair 3, public key of
pair 7) loads successfully. -/
theorem C10_load_no_consistency_check_witness :
    ((OpenE2EE.new "u" "p").load (.privSer 3 "p") (.pubSer 7)).1 =
      .ok { OpenE2EE.new "u" "p" with
        privateKey := some 3
        publicKey := some 7
        privateKeyEncryptedText := some (.privSer 3 "p")
        publicKeyText := some (.pubSer 7) } :=
  (C10_load_no_consistency_check (OpenE2EE.new "u" "p")).2 3 7
